import Mathlib

/-
Verification of the music bot's playback-session behaviour
(src/music_bot.py), modelled as a shallow embedding.

The bot's observable per-guild state is the pair (author's voice channel,
voice client).  A discord voice client carries a channel and the transport
flags behind is_playing()/is_paused(): an attached audio source (`active`)
and a paused flag; is_playing() is true exactly when a source is attached
and not paused, is_paused() exactly when attached and paused.

Each command is embedded as a function from this state to a result holding
the new state, the sequence of transport operations issued
(connect/move_to/stop/disconnect/play/pause/resume) and the chat messages
sent via ctx.send.  The `play` command suspends at the
`await YTDLSource.from_url(...)` call (line 136); to reason about
interleavings it is split into `playPhase1` (everything before the await:
the auto-join and the is_playing/is_paused guard of lines 121-130) and
`playPhase2` (the remainder of the try block: lines 138-141 together with
the except handler of lines 143-145, which also catches exceptions raised
by `ctx.voice_client.play` when the client is gone or already playing).
The sequential command `play` composes the two phases.  An uncaught Python
exception (the AttributeError from `None.is_playing()` at line 129, which
sits outside the try block) is recorded in the `crash` flag of `PlayOut`.

The resolver `YTDLSource.from_url` is embedded over an abstract backend
reply `ExtractResult`: either yt-dlp raised (`failure`), or it returned a
single info dict, or a dict with an `entries` list (playlist / search).
The embedding mirrors lines 56-71: take entries[0] when present
(IndexError when the list is empty), read data.get for title/url/uploader,
and raise KeyError when data has no url (line 68).
-/

namespace MusicBot

/-- One yt-dlp info dict: the fields the bot reads, each optional since the
bot reads them with dict.get. -/
structure Entry where
  title : Option String
  url : Option String
  uploader : Option String
deriving DecidableEq

/-- The reply of ytdl.extract_info: an exception from the backend, a single
info dict, or a dict carrying an entries list (playlist or search result). -/
inductive ExtractResult
  | failure
  | single (data : Entry)
  | playlist (entries : List Entry)
deriving DecidableEq

/-- The Python exceptions the resolver path can raise, all caught by the
except handler in the play command: a yt-dlp DownloadError, the IndexError
from entries[0] on an empty list, the KeyError from data with no url. -/
inductive ResolveError
  | downloadError
  | indexError
  | keyError
deriving DecidableEq

/-- The fields of the constructed YTDLSource object the commands use. -/
structure Player where
  title : Option String
  url : Option String
  uploader : Option String
deriving DecidableEq

namespace YTDLSource

/-- YTDLSource.from_url (lines 56-71), stream=True: run extract_info, take
entries[0] when the reply holds an entries list, fail on data with no url,
otherwise build the player from data.get of title, url, uploader. -/
def from_url (res : ExtractResult) : Except ResolveError Player :=
  match res with
  | .failure => .error .downloadError
  | .single data =>
      match data.url with
      | none => .error .keyError
      | some _ => .ok ⟨data.title, data.url, data.uploader⟩
  | .playlist entries =>
      match entries with
      | [] => .error .indexError
      | data :: _ =>
          match data.url with
          | none => .error .keyError
          | some _ => .ok ⟨data.title, data.url, data.uploader⟩

end YTDLSource

/-- The guild's voice client: the channel it is connected to, whether an
audio source is attached (`active`), and whether playback is paused. -/
structure VoiceClient where
  channel : Nat
  active : Bool
  paused : Bool
deriving DecidableEq

/-- discord.VoiceClient.is_playing: a source is attached and not paused. -/
def VoiceClient.is_playing (vc : VoiceClient) : Bool := vc.active && !vc.paused

/-- discord.VoiceClient.is_paused: a source is attached and paused. -/
def VoiceClient.is_paused (vc : VoiceClient) : Bool := vc.active && vc.paused

/-- The command context: the channel the requesting user's voice state
points to (ctx.author.voice), and the guild's voice client
(ctx.voice_client). -/
structure Ctx where
  authorVoice : Option Nat
  voiceClient : Option VoiceClient
deriving DecidableEq

/-- The chat messages the commands send via ctx.send, one constructor per
send site in the source. -/
inductive Msg
  | notConnectedToVoice
  | connected (channel : Nat)
  | disconnected
  | notInVoiceChannel
  | needVoiceChannel
  | alreadyPlaying
  | nowPlaying (title uploader : Option String)
  | playError
  | pausedMsg
  | notPlayingMsg
  | resumedMsg
  | notPausedMsg
deriving DecidableEq

/-- The operations issued against the voice transport. -/
inductive TransportOp
  | connect (channel : Nat)
  | moveTo (channel : Nat)
  | stop
  | disconnect
  | startPlay (title : Option String)
  | pauseSignal
  | resumeSignal
deriving DecidableEq

/-- Result of a command that returns normally: new context, transport
operations issued, messages sent. -/
structure CmdOut where
  ctx : Ctx
  ops : List TransportOp
  msgs : List Msg
deriving DecidableEq

/-- The join command (lines 87-100): report when the author is in no voice
channel; move an existing client to the author's channel; otherwise connect
a fresh client there. -/
def join (ctx : Ctx) : CmdOut :=
  match ctx.authorVoice with
  | none => ⟨ctx, [], [.notConnectedToVoice]⟩
  | some channel =>
      match ctx.voiceClient with
      | some vc =>
          ⟨{ ctx with voiceClient := some { vc with channel := channel } },
            [.moveTo channel], []⟩
      | none =>
          ⟨{ ctx with voiceClient := some ⟨channel, false, false⟩ },
            [.connect channel], [.connected channel]⟩

/-- The leave command (lines 103-114): with a client, stop when playing,
then disconnect and report; with no client, report only. -/
def leave (ctx : Ctx) : CmdOut :=
  match ctx.voiceClient with
  | some vc =>
      if vc.is_playing then
        ⟨{ ctx with voiceClient := none }, [.stop, .disconnect], [.disconnected]⟩
      else
        ⟨{ ctx with voiceClient := none }, [.disconnect], [.disconnected]⟩
  | none => ⟨ctx, [], [.notInVoiceChannel]⟩

/-- Outcome of the synchronous prefix of the play command, up to the await
of from_url: an uncaught AttributeError from line 129 when the client is
still absent, an early return (the AlreadyPlaying message of line 130), or
control reaching the try block with the resolution in flight. -/
inductive Phase1Result
  | crashed (ctx : Ctx) (ops : List TransportOp) (msgs : List Msg)
  | rejected (ctx : Ctx) (ops : List TransportOp) (msgs : List Msg)
  | proceed (ctx : Ctx) (ops : List TransportOp) (msgs : List Msg)
deriving DecidableEq

/-- Lines 118-130 of the play command: auto-join when no client exists
(join sends its own message and returns normally when the author is in no
voice channel, so the except branch of line 125 is not taken on that path),
then evaluate ctx.voice_client.is_playing() or is_paused() — an
AttributeError when the client is still None — and return early when the
client is playing or paused. -/
def playPhase1 (ctx : Ctx) : Phase1Result :=
  let step : CmdOut :=
    match ctx.voiceClient with
    | none => join ctx
    | some _ => ⟨ctx, [], []⟩
  match step.ctx.voiceClient with
  | none => .crashed step.ctx step.ops step.msgs
  | some vc =>
      if vc.is_playing || vc.is_paused then
        .rejected step.ctx step.ops (step.msgs ++ [.alreadyPlaying])
      else
        .proceed step.ctx step.ops step.msgs

/-- Lines 132-145 after the resolution completes, with the context re-read
from shared state: a resolver exception lands in the except handler (one
generic message); ctx.voice_client.play raises when the client is gone
(AttributeError on None) or already playing (ClientException), both inside
the try, landing in the same handler; otherwise the source starts and the
now-playing message is sent. -/
def playPhase2 (ctx : Ctx) (r : Except ResolveError Player) : CmdOut :=
  match r with
  | .error _ => ⟨ctx, [], [.playError]⟩
  | .ok player =>
      match ctx.voiceClient with
      | none => ⟨ctx, [], [.playError]⟩
      | some vc =>
          if vc.is_playing then ⟨ctx, [], [.playError]⟩
          else
            ⟨{ ctx with voiceClient := some { vc with active := true, paused := false } },
              [.startPlay player.title],
              [.nowPlaying player.title player.uploader]⟩

/-- Result of a full play command: final context, transport operations,
messages, and whether an uncaught exception propagated to the dispatcher. -/
structure PlayOut where
  ctx : Ctx
  ops : List TransportOp
  msgs : List Msg
  crash : Bool
deriving DecidableEq

/-- The sequential play command: phase 1, then resolution, then phase 2 on
the context phase 1 left (no interference in the sequential case).  The
crash flag records the uncaught AttributeError of line 129. -/
def play (ctx : Ctx) (res : ExtractResult) : PlayOut :=
  match playPhase1 ctx with
  | .crashed c o m => ⟨c, o, m, true⟩
  | .rejected c o m => ⟨c, o, m, false⟩
  | .proceed c o m =>
      let r := playPhase2 c (YTDLSource.from_url res)
      ⟨r.ctx, o ++ r.ops, m ++ r.msgs, false⟩

/-- The pause command (lines 148-155): pause only when a client exists and
is playing, otherwise report. -/
def pause (ctx : Ctx) : CmdOut :=
  match ctx.voiceClient with
  | some vc =>
      if vc.is_playing then
        ⟨{ ctx with voiceClient := some { vc with paused := true } },
          [.pauseSignal], [.pausedMsg]⟩
      else ⟨ctx, [], [.notPlayingMsg]⟩
  | none => ⟨ctx, [], [.notPlayingMsg]⟩

/-- The resume command (lines 158-165): resume only when a client exists
and is paused, otherwise report. -/
def resume (ctx : Ctx) : CmdOut :=
  match ctx.voiceClient with
  | some vc =>
      if vc.is_paused then
        ⟨{ ctx with voiceClient := some { vc with paused := false } },
          [.resumeSignal], [.resumedMsg]⟩
      else ⟨ctx, [], [.notPausedMsg]⟩
  | none => ⟨ctx, [], [.notPausedMsg]⟩

/-- C4: for a reply carrying an entries list, from_url uses only the first
entry: the result equals that of resolving the first entry alone, however
the tail is filled, and on success the player's title, url and uploader are
exactly the first entry's. -/
theorem from_url_first_entry (e : Entry) (rest : List Entry) :
    YTDLSource.from_url (.playlist (e :: rest)) = YTDLSource.from_url (.single e)
    ∧ ∀ p, YTDLSource.from_url (.playlist (e :: rest)) = .ok p →
        p.title = e.title ∧ p.url = e.url ∧ p.uploader = e.uploader := by
  cases h : e.url with
  | none => simp [YTDLSource.from_url, h]
  | some u =>
      refine ⟨by simp [YTDLSource.from_url, h], ?_⟩
      intro p hp
      simp [YTDLSource.from_url, h] at hp
      simp [← hp]

/-- Witness for from_url_first_entry: a two-entry search result resolves to
the first entry's metadata, the second entry untouched. -/
theorem from_url_first_entry_witness :
    YTDLSource.from_url (.playlist [⟨some "a", some "u", none⟩, ⟨some "b", some "v", some "w"⟩])
        = YTDLSource.from_url (.single ⟨some "a", some "u", none⟩)
    ∧ (Player.mk (some "a") (some "u") none).title = some "a"
      ∧ (Player.mk (some "a") (some "u") none).url = some "u"
      ∧ (Player.mk (some "a") (some "u") none).uploader = none :=
  ⟨(from_url_first_entry ⟨some "a", some "u", none⟩ [⟨some "b", some "v", some "w"⟩]).1,
   (from_url_first_entry ⟨some "a", some "u", none⟩ [⟨some "b", some "v", some "w"⟩]).2
     ⟨some "a", some "u", none⟩ rfl⟩

/-- C5: join fails with the not-in-voice-channel report and changes nothing
when the author is in no voice channel; with no existing client it connects
one to the author's channel; with an existing client in a different channel
it moves that client to the author's channel. -/
theorem join_spec (ctx : Ctx) :
    (ctx.authorVoice = none → join ctx = ⟨ctx, [], [.notConnectedToVoice]⟩)
    ∧ (∀ ch, ctx.authorVoice = some ch → ctx.voiceClient = none →
        join ctx = ⟨{ ctx with voiceClient := some ⟨ch, false, false⟩ },
                     [.connect ch], [.connected ch]⟩)
    ∧ (∀ ch vc, ctx.authorVoice = some ch → ctx.voiceClient = some vc →
        vc.channel ≠ ch →
        join ctx = ⟨{ ctx with voiceClient := some { vc with channel := ch } },
                     [.moveTo ch], []⟩) := by
  refine ⟨fun h => by simp [join, h], fun ch h hv => by simp [join, h, hv],
    fun ch vc h hv _ => by simp [join, h, hv]⟩

/-- Witness for join_spec: the three branches at concrete contexts — author
absent from voice, fresh connect to channel 1, move from channel 1 to 2. -/
theorem join_spec_witness :
    join ⟨none, none⟩ = ⟨⟨none, none⟩, [], [.notConnectedToVoice]⟩
    ∧ join ⟨some 1, none⟩
        = ⟨⟨some 1, some ⟨1, false, false⟩⟩, [.connect 1], [.connected 1]⟩
    ∧ join ⟨some 2, some ⟨1, true, false⟩⟩
        = ⟨⟨some 2, some ⟨2, true, false⟩⟩, [.moveTo 2], []⟩ :=
  ⟨(join_spec ⟨none, none⟩).1 rfl,
   (join_spec ⟨some 1, none⟩).2.1 1 rfl rfl,
   (join_spec ⟨some 2, some ⟨1, true, false⟩⟩).2.2 2 ⟨1, true, false⟩ rfl rfl
     (by decide)⟩

/-- C6: leave on a connected session tears the transport down whatever the
prior state — the final context holds no voice client, so no stream remains
active, with an explicit stop issued first exactly when audio was playing —
and reports the disconnect; leave with no session reports the
not-in-voice-channel failure, returns normally and changes nothing. -/
theorem leave_spec (ctx : Ctx) :
    (∀ vc, ctx.voiceClient = some vc →
        leave ctx = ⟨{ ctx with voiceClient := none },
                      if vc.is_playing then [.stop, .disconnect] else [.disconnect],
                      [.disconnected]⟩)
    ∧ (ctx.voiceClient = none → leave ctx = ⟨ctx, [], [.notInVoiceChannel]⟩) := by
  constructor
  · intro vc hv
    by_cases hp : vc.is_playing <;> simp [leave, hv, hp]
  · intro h
    simp [leave, h]

/-- Witness for leave_spec: leave on a playing session, on a paused
session, and on a guild with no session. -/
theorem leave_spec_witness :
    leave ⟨some 1, some ⟨1, true, false⟩⟩
        = ⟨⟨some 1, none⟩,
            if (VoiceClient.mk 1 true false).is_playing
              then [.stop, .disconnect] else [.disconnect],
            [.disconnected]⟩
    ∧ leave ⟨some 1, some ⟨1, true, true⟩⟩
        = ⟨⟨some 1, none⟩,
            if (VoiceClient.mk 1 true true).is_playing
              then [.stop, .disconnect] else [.disconnect],
            [.disconnected]⟩
    ∧ leave ⟨none, none⟩ = ⟨⟨none, none⟩, [], [.notInVoiceChannel]⟩ :=
  ⟨(leave_spec ⟨some 1, some ⟨1, true, false⟩⟩).1 ⟨1, true, false⟩ rfl,
   (leave_spec ⟨some 1, some ⟨1, true, true⟩⟩).1 ⟨1, true, true⟩ rfl,
   (leave_spec ⟨none, none⟩).2 rfl⟩

/-- C7: with no voice client both pause and resume fail with their reports
and change nothing; with a client, pause succeeds (sends the paused report)
exactly when the client is playing and resume exactly when it is paused,
each failing with its invalid-state report otherwise; and from a playing
state, pause then resume restores the original context exactly while a
second consecutive resume fails and changes nothing. -/
theorem pause_resume_spec (ctx : Ctx) :
    (ctx.voiceClient = none →
        pause ctx = ⟨ctx, [], [.notPlayingMsg]⟩
      ∧ resume ctx = ⟨ctx, [], [.notPausedMsg]⟩)
    ∧ (∀ vc, ctx.voiceClient = some vc →
        ((pause ctx).msgs = [.pausedMsg] ↔ vc.is_playing = true)
      ∧ ((resume ctx).msgs = [.resumedMsg] ↔ vc.is_paused = true)
      ∧ (vc.is_playing = false → pause ctx = ⟨ctx, [], [.notPlayingMsg]⟩)
      ∧ (vc.is_paused = false → resume ctx = ⟨ctx, [], [.notPausedMsg]⟩)
      ∧ (vc.is_playing = true →
            resume (pause ctx).ctx = ⟨ctx, [.resumeSignal], [.resumedMsg]⟩
          ∧ resume (resume (pause ctx).ctx).ctx = ⟨ctx, [], [.notPausedMsg]⟩)) := by
  obtain ⟨a, v⟩ := ctx
  constructor
  · rintro rfl
    exact ⟨rfl, rfl⟩
  · rintro ⟨ch, act, ps⟩ rfl
    cases act <;> cases ps <;>
      simp [pause, resume, VoiceClient.is_playing, VoiceClient.is_paused]

/-- Witness for pause_resume_spec: on a playing client, pause reports
success, resume after pause restores the original context, and a second
resume fails; on the same client a direct resume fails; with no client both
commands fail. -/
theorem pause_resume_spec_witness :
    (pause ⟨some 1, none⟩ = ⟨⟨some 1, none⟩, [], [.notPlayingMsg]⟩
      ∧ resume ⟨some 1, none⟩ = ⟨⟨some 1, none⟩, [], [.notPausedMsg]⟩)
    ∧ ((pause ⟨some 1, some ⟨1, true, false⟩⟩).msgs = [.pausedMsg]
        ↔ (VoiceClient.mk 1 true false).is_playing = true)
    ∧ resume ⟨some 1, some ⟨1, true, false⟩⟩
        = ⟨⟨some 1, some ⟨1, true, false⟩⟩, [], [.notPausedMsg]⟩
    ∧ resume (pause ⟨some 1, some ⟨1, true, false⟩⟩).ctx
        = ⟨⟨some 1, some ⟨1, true, false⟩⟩, [.resumeSignal], [.resumedMsg]⟩
    ∧ resume (resume (pause ⟨some 1, some ⟨1, true, false⟩⟩).ctx).ctx
        = ⟨⟨some 1, some ⟨1, true, false⟩⟩, [], [.notPausedMsg]⟩ :=
  ⟨(pause_resume_spec ⟨some 1, none⟩).1 rfl,
   ((pause_resume_spec ⟨some 1, some ⟨1, true, false⟩⟩).2 ⟨1, true, false⟩ rfl).1,
   ((pause_resume_spec ⟨some 1, some ⟨1, true, false⟩⟩).2 ⟨1, true, false⟩ rfl).2.2.2.1 rfl,
   (((pause_resume_spec ⟨some 1, some ⟨1, true, false⟩⟩).2 ⟨1, true, false⟩ rfl).2.2.2.2 rfl).1,
   (((pause_resume_spec ⟨some 1, some ⟨1, true, false⟩⟩).2 ⟨1, true, false⟩ rfl).2.2.2.2 rfl).2⟩

/-- C3: when the resolver fails during a play request on a connected,
inactive session, the command returns normally — the exception is caught,
never an unhandled fault — with the single failure report, the context
unchanged (still connected, no source attached: the session is back where
it started, idle), and no transport operation issued. -/
theorem play_resolver_failure (ctx : Ctx) (vc : VoiceClient)
    (res : ExtractResult) (hv : ctx.voiceClient = some vc)
    (ha : vc.active = false)
    (he : ∃ e, YTDLSource.from_url res = .error e) :
    play ctx res = ⟨ctx, [], [.playError], false⟩ := by
  obtain ⟨e, he⟩ := he
  have h1 : playPhase1 ctx = .proceed ctx [] [] := by
    simp [playPhase1, hv, VoiceClient.is_playing, VoiceClient.is_paused, ha]
  simp [play, h1, playPhase2, he]

/-- Witness for play_resolver_failure: an empty search result on a
connected idle session yields the single failure report and leaves the
context unchanged. -/
theorem play_resolver_failure_witness :
    play ⟨some 1, some ⟨1, false, false⟩⟩ (.playlist [])
      = ⟨⟨some 1, some ⟨1, false, false⟩⟩, [], [.playError], false⟩ :=
  play_resolver_failure ⟨some 1, some ⟨1, false, false⟩⟩ ⟨1, false, false⟩
    (.playlist []) rfl rfl ⟨.indexError, rfl⟩

/-- C2: play invoked with no voice client and the requesting user in no
voice channel.  The auto-joined join sends its not-connected report and
returns normally, so the except branch guarding it never fires; line 129
then evaluates ctx.voice_client.is_playing() on None and the command dies
with an uncaught AttributeError (crash flag true).  No session is created
(the voice client stays absent) and no resolution is attempted: the result
is the same for every backend reply and issues no transport operation. -/
theorem play_not_in_voice_crashes (res : ExtractResult) :
    play ⟨none, none⟩ res
      = ⟨⟨none, none⟩, [], [.notConnectedToVoice], true⟩ := rfl

/-- C10: once the command reaches the try block (phase 1 proceeded), the
full play command never crashes — every exception raised during resolution
or while starting the transport stream is caught inside the command — and
a resolver failure produces exactly one generic failure report beyond the
messages phase 1 already sent. -/
theorem play_try_region_catches (ctx c : Ctx) (o : List TransportOp)
    (m : List Msg) (res : ExtractResult)
    (hp : playPhase1 ctx = .proceed c o m) :
    (play ctx res).crash = false
    ∧ ((∃ e, YTDLSource.from_url res = .error e) →
        play ctx res = ⟨c, o, m ++ [.playError], false⟩)
    ∧ (c.voiceClient = none → play ctx res = ⟨c, o, m ++ [.playError], false⟩) := by
  refine ⟨by simp [play, hp], ?_, ?_⟩
  · rintro ⟨e, he⟩
    simp [play, hp, playPhase2, he]
  · intro hn
    cases hr : YTDLSource.from_url res with
    | error e => simp [play, hp, playPhase2, hr]
    | ok p => simp [play, hp, playPhase2, hr, hn]

/-- Witness for play_try_region_catches: a backend failure on a connected
idle session is caught and reported with a single generic message. -/
theorem play_try_region_catches_witness :
    (play ⟨some 1, some ⟨1, false, false⟩⟩ .failure).crash = false
    ∧ play ⟨some 1, some ⟨1, false, false⟩⟩ .failure
        = ⟨⟨some 1, some ⟨1, false, false⟩⟩, [], [] ++ [.playError], false⟩ :=
  ⟨(play_try_region_catches ⟨some 1, some ⟨1, false, false⟩⟩
      ⟨some 1, some ⟨1, false, false⟩⟩ [] [] .failure rfl).1,
   (play_try_region_catches ⟨some 1, some ⟨1, false, false⟩⟩
      ⟨some 1, some ⟨1, false, false⟩⟩ [] [] .failure rfl).2.1
     ⟨.downloadError, rfl⟩⟩

/-- C1 counterexample: the shared state of a session whose earlier play is
suspended mid-resolution is exactly a connected client with no source
attached — the first conjunct shows a play from that state reaches the
await (is in flight, state Resolving) with that very context.  A second
play issued in this state is not rejected with the AlreadyPlaying report:
it runs to completion, resolves, and starts a second stream, refuting the
claim that play fails with AlreadyPlaying whenever the state is
Resolving. -/
theorem play_during_resolving_not_rejected :
    playPhase1 ⟨some 1, some ⟨1, false, false⟩⟩
      = .proceed ⟨some 1, some ⟨1, false, false⟩⟩ [] []
    ∧ play ⟨some 1, some ⟨1, false, false⟩⟩ (.single ⟨some "t", some "u", some "w"⟩)
        = ⟨⟨some 1, some ⟨1, true, false⟩⟩, [.startPlay (some "t")],
            [.nowPlaying (some "t") (some "w")], false⟩ :=
  ⟨rfl, rfl⟩

/-- C1 amended: on a session with a voice client, the synchronous guard of
play rejects with the AlreadyPlaying report exactly when a source is
attached (playing or paused); while a resolution is merely in flight no
source is attached, so the guard lets a second play proceed to resolve. -/
theorem play_gate_iff_source_attached (ctx : Ctx) (vc : VoiceClient)
    (hv : ctx.voiceClient = some vc) :
    playPhase1 ctx
      = if vc.active then .rejected ctx [] [.alreadyPlaying]
        else .proceed ctx [] [] := by
  obtain ⟨ch, act, ps⟩ := vc
  cases act <;> cases ps <;>
    simp [playPhase1, hv, VoiceClient.is_playing, VoiceClient.is_paused]

/-- Witness for play_gate_iff_source_attached: a paused session rejects a
new play with the AlreadyPlaying report. -/
theorem play_gate_iff_source_attached_witness :
    playPhase1 ⟨some 1, some ⟨1, true, true⟩⟩
      = if (VoiceClient.mk 1 true true).active
          then .rejected ⟨some 1, some ⟨1, true, true⟩⟩ [] [.alreadyPlaying]
          else .proceed ⟨some 1, some ⟨1, true, true⟩⟩ [] [] :=
  play_gate_iff_source_attached ⟨some 1, some ⟨1, true, true⟩⟩
    ⟨1, true, true⟩ rfl

/-- C8 counterexample: an entry with a stream url but no title resolves
successfully to a player whose title is absent, refuting the claim that
resolve never returns track metadata lacking a title. -/
theorem from_url_missing_title_ok :
    YTDLSource.from_url (.single ⟨none, some "u", none⟩)
      = .ok ⟨none, some "u", none⟩ := rfl

/-- C8 amended: from_url fails on an empty entries list (the IndexError of
entries[0]) and fails whenever the selected entry lacks a stream url (the
KeyError of line 68), and every successful result carries a stream url;
the title is not validated and may be absent from a successful result. -/
theorem from_url_validation :
    YTDLSource.from_url (.playlist []) = .error .indexError
    ∧ (∀ e, e.url = none →
        YTDLSource.from_url (.single e) = .error .keyError
        ∧ ∀ rest, YTDLSource.from_url (.playlist (e :: rest)) = .error .keyError)
    ∧ (∀ res p, YTDLSource.from_url res = .ok p → ∃ u, p.url = some u) := by
  refine ⟨rfl, fun e he => ⟨by simp [YTDLSource.from_url, he],
    fun rest => by simp [YTDLSource.from_url, he]⟩, ?_⟩
  intro res p hp
  cases res with
  | failure => simp [YTDLSource.from_url] at hp
  | single data =>
      cases h : data.url <;> simp [YTDLSource.from_url, h] at hp
      rw [← hp]
      exact ⟨_, rfl⟩
  | playlist entries =>
      cases entries with
      | nil => simp [YTDLSource.from_url] at hp
      | cons data rest =>
          cases h : data.url <;> simp [YTDLSource.from_url, h] at hp
          rw [← hp]
          exact ⟨_, rfl⟩

/-- Witness for from_url_validation: an entry with no url fails to resolve,
alone and at the head of a playlist, and a resolved player carries its
url. -/
theorem from_url_validation_witness :
    YTDLSource.from_url (.single ⟨some "t", none, none⟩) = .error .keyError
    ∧ YTDLSource.from_url (.playlist [⟨some "t", none, none⟩]) = .error .keyError
    ∧ ∃ u, (Player.mk (some "t") (some "u") none).url = some u :=
  ⟨((from_url_validation).2.1 ⟨some "t", none, none⟩ rfl).1,
   ((from_url_validation).2.1 ⟨some "t", none, none⟩ rfl).2 [],
   (from_url_validation).2.2 (.single ⟨some "t", some "u", none⟩)
     ⟨some "t", some "u", none⟩ rfl⟩

/-- C9: a leave issued while a play is suspended in resolution.  Phase 1 of
the play proceeded from a connected inactive session; the interleaved leave
tears the transport down (the shared voice client becomes absent); when the
resolution then completes — whatever its result — phase 2 re-reads the
shared state, finds no client, and the AttributeError from
ctx.voice_client.play lands in the except handler: the transport stays
down, no start-play operation is issued, no track is ever bound, and only
the generic failure report is sent. -/
theorem leave_during_resolving (ctx : Ctx) (vc : VoiceClient)
    (r : Except ResolveError Player)
    (hv : ctx.voiceClient = some vc) (ha : vc.active = false) :
    playPhase1 ctx = .proceed ctx [] []
    ∧ (leave ctx).ctx.voiceClient = none
    ∧ playPhase2 (leave ctx).ctx r
        = ⟨(leave ctx).ctx, [], [.playError]⟩ := by
  have h1 : playPhase1 ctx = .proceed ctx [] [] := by
    simp [playPhase1, hv, VoiceClient.is_playing, VoiceClient.is_paused, ha]
  have h2 : (leave ctx).ctx.voiceClient = none := by
    by_cases hp : vc.is_playing <;> simp [leave, hv, hp]
  refine ⟨h1, h2, ?_⟩
  cases r with
  | error e => simp [playPhase2]
  | ok p => simp [playPhase2, h2]

/-- Witness for leave_during_resolving: a successfully resolved track is
discarded when leave ran during the resolution — no stream starts and the
client stays gone. -/
theorem leave_during_resolving_witness :
    playPhase1 ⟨some 1, some ⟨1, false, false⟩⟩
      = .proceed ⟨some 1, some ⟨1, false, false⟩⟩ [] []
    ∧ (leave ⟨some 1, some ⟨1, false, false⟩⟩).ctx.voiceClient = none
    ∧ playPhase2 (leave ⟨some 1, some ⟨1, false, false⟩⟩).ctx
          (.ok ⟨some "t", some "u", none⟩)
        = ⟨(leave ⟨some 1, some ⟨1, false, false⟩⟩).ctx, [], [.playError]⟩ :=
  leave_during_resolving ⟨some 1, some ⟨1, false, false⟩⟩ ⟨1, false, false⟩
    (.ok ⟨some "t", some "u", none⟩) rfl rfl

end MusicBot
